import Mathlib

/-!
Shallow embedding of the mean-reversion rotation bot
(src/main.py and src/backend/main.py).

Python floats are modelled as rationals, Python dicts as association
lists over String keys.  The per-pair loop body of main() is embedded as
a pure step function parameterised by the external venue behaviour
(sell outcome, refreshed balances, buy outcome).
-/

/-- Association-list lookup, modelling Python dict.get(key). -/
def alookup {α : Type} : List (String × α) → String → Option α
  | [], _ => none
  | (k, v) :: rest, key => if key = k then some v else alookup rest key

/-- Dict.get(key, default). -/
def alookupD {α : Type} (l : List (String × α)) (key : String) (d : α) : α :=
  (alookup l key).getD d

/-- Dict assignment d[key] = v (replace if present, else append). -/
def aset {α : Type} : List (String × α) → String → α → List (String × α)
  | [], key, v => [(key, v)]
  | (k, w) :: rest, key, v =>
    if k = key then (k, v) :: rest else (k, w) :: aset rest key v

/-- One entry of the PAIRS config (src/main.py lines 42-60): the dict keys
coin_a, coin_b, upper_ratio, lower_ratio, allocation_pct; the threshold and
allocation fields are named after the local variables of main()
(upper, lower, alloc_pct: src/main.py lines 203-205). -/
structure PairConfig where
  name : String
  coin_a : String
  coin_b : String
  upper : ℚ
  lower : ℚ
  alloc_pct : ℚ
deriving DecidableEq, Repr

/-- A market order submitted to the venue: symbol and quantity. -/
inductive Order where
  | sell : String → ℚ → Order
  | buy : String → ℚ → Order
deriving DecidableEq, Repr

/-- Whether an order is a buy order. -/
def Order.isBuy : Order → Bool
  | .buy _ _ => true
  | .sell _ _ => false

/-- External venue behaviour for one rotation attempt: whether the sell
call succeeds, the balances returned by the mid-rotation load_balances
refresh (src/main.py line 294), and whether the buy call succeeds. -/
structure Venue where
  sellOk : Bool
  refreshedBal : List (String × ℚ)
  buyOk : Bool

/-- The computed action for a pair this tick (next_plan,
src/main.py lines 249-253): HOLD, switch coin_a to coin_b, or switch
coin_b to coin_a. -/
inductive PlanAction where
  | hold
  | rotateAB
  | rotateBA
deriving DecidableEq, Repr

/-- One step of the portfolio-valuation accumulation
(src/main.py lines 185-194): skip non-positive amounts, add the amount
itself for the stable asset, else add amount times price when the ticker
is present and truthy (a float is falsy exactly when it is zero). -/
def totalStep (stable : String) (tickers : List (String × ℚ))
    (acc : ℚ) (p : String × ℚ) : ℚ :=
  if p.2 ≤ 0 then acc
  else if p.1 = stable then acc + p.2
  else
    match alookup tickers (p.1 ++ stable) with
    | some px => if px = 0 then acc else acc + p.2 * px
    | none => acc

/-- total_value_stable (src/main.py lines 184-194): fold of totalStep
over the balance snapshot starting from 0.0. -/
def totalValueStable (stable : String)
    (freeBal tickers : List (String × ℚ)) : ℚ :=
  freeBal.foldl (totalStep stable tickers) 0

/-- Modelled from the spec (Portfolio Valuator contract, spec section
4.1), for comparison with totalValueStable: the value contributed by one
balance entry; amount itself for the stable asset, amount times price
when the ticker asset+stable is present, and zero (excluded) otherwise,
counting only entries with positive amount. -/
def specAssetValue (stable : String) (tickers : List (String × ℚ))
    (asset : String) (amount : ℚ) : ℚ :=
  if 0 < amount then
    if asset = stable then amount
    else
      match alookup tickers (asset ++ stable) with
      | some px => amount * px
      | none => 0
  else 0

/-- trade_value = min(value_pair, max_capital)
(src/main.py lines 265 and 321). -/
def tradeValue (value_pair max_capital : ℚ) : ℚ :=
  min value_pair max_capital

/-- amount_to_sell = min(held balance, trade_value / held price)
(src/main.py lines 266 and 322). -/
def sellQty (balHeld tv priceHeld : ℚ) : ℚ :=
  min balHeld (tv / priceHeld)

/-- stable_for_pair = min(bal_stable, max_capital)
(src/main.py lines 297 and 352). -/
def stableForPair (bal_stable max_capital : ℚ) : ℚ :=
  min bal_stable max_capital

/-- value_pair = bal_a * price_a + bal_b * price_b
(src/main.py lines 229-231), with the balances read from the snapshot
with default 0.0 (lines 223-224). -/
def valuePair (bal : List (String × ℚ)) (coin_a coin_b : String)
    (price_a price_b : ℚ) : ℚ :=
  alookupD bal coin_a 0 * price_a + alookupD bal coin_b 0 * price_b

/-- next_plan (src/main.py lines 249-253): rotate A to B when holding
coin_a and the ratio is strictly above upper, else rotate B to A when
holding coin_b and the ratio is strictly below lower, else hold. -/
def nextPlan (pair : PairConfig) (current_asset : String) (rVal : ℚ) :
    PlanAction :=
  if current_asset = pair.coin_a ∧ rVal > pair.upper then .rotateAB
  else if current_asset = pair.coin_b ∧ rVal < pair.lower then .rotateBA
  else .hold

/-- Result of evaluating one pair for one tick: the current_asset after
the step, the orders submitted to the venue in submission order, whether
save_state was called for this pair, the balance snapshot visible to
subsequent pairs (refreshed after a successful live sell,
src/main.py line 294), and whether the pair body raised an uncaught
ZeroDivisionError (src/main.py lines 266 and 354 divide by price_a with
no guard and outside any local try, so with price_a = 0 the exception
propagates to the global handler at line 375 and aborts the rest of the
cycle). -/
structure PairOutcome where
  newAsset : String
  orders : List Order
  persisted : Bool
  newBal : List (String × ℚ)
  crashed : Bool
deriving DecidableEq, Repr

/-- The per-pair loop body of main() (src/main.py lines 199-371), from
the ticker lookups to the end of the execution branches.  Skips (missing
ticker, zero price_b, nothing to trade, dry run, failed sell) leave the
state, order list and balances unchanged.  The two unguarded divisions
by price_a (lines 266 and 354) are modelled by the crashed flag: with
price_a = 0 they raise ZeroDivisionError, which no handler in the pair
body catches, so the state is not flipped, nothing is persisted and the
cycle aborts. -/
def pairStep (stable : String) (pair : PairConfig)
    (tickers bal : List (String × ℚ)) (totalValue : ℚ)
    (current_asset : String) (dryRun : Bool) (venue : Venue) :
    PairOutcome :=
  match alookup tickers (pair.coin_a ++ stable),
        alookup tickers (pair.coin_b ++ stable) with
  | some price_a, some price_b =>
    if price_b = 0 then ⟨current_asset, [], false, bal, false⟩
    else
      let rVal := price_a / price_b
      let bal_a := alookupD bal pair.coin_a 0
      let bal_b := alookupD bal pair.coin_b 0
      let max_capital := totalValue * pair.alloc_pct
      let value_pair := valuePair bal pair.coin_a pair.coin_b price_a price_b
      if current_asset = pair.coin_a ∧ rVal > pair.upper then
        if value_pair ≤ 0 then ⟨current_asset, [], false, bal, false⟩
        else if price_a = 0 then
          -- line 266 divides trade_value by price_a before anything else
          -- in this branch (also before the DRY_RUN check): with
          -- price_a = 0 Python raises ZeroDivisionError here, no order
          -- is submitted and the cycle aborts.
          ⟨current_asset, [], false, bal, true⟩
        else
          let amount_a_to_sell :=
            sellQty bal_a (tradeValue value_pair max_capital) price_a
          if amount_a_to_sell ≤ 0 then ⟨current_asset, [], false, bal, false⟩
          else if dryRun then ⟨current_asset, [], false, bal, false⟩
          else if venue.sellOk then
            let bal2 := venue.refreshedBal
            let bal_stable := alookupD bal2 stable 0
            let sfp := stableForPair bal_stable max_capital
            if sfp > 0 then
              ⟨pair.coin_b,
               [.sell (pair.coin_a ++ stable) amount_a_to_sell,
                .buy (pair.coin_b ++ stable) (sfp / price_b)],
               true, bal2, false⟩
            else
              ⟨pair.coin_b,
               [.sell (pair.coin_a ++ stable) amount_a_to_sell],
               true, bal2, false⟩
          else
            ⟨current_asset,
             [.sell (pair.coin_a ++ stable) amount_a_to_sell],
             false, bal, false⟩
      else if current_asset = pair.coin_b ∧ rVal < pair.lower then
        if value_pair ≤ 0 then ⟨current_asset, [], false, bal, false⟩
        else
          let amount_b_to_sell :=
            sellQty bal_b (tradeValue value_pair max_capital) price_b
          if amount_b_to_sell ≤ 0 then ⟨current_asset, [], false, bal, false⟩
          else if dryRun then ⟨current_asset, [], false, bal, false⟩
          else if venue.sellOk then
            let bal2 := venue.refreshedBal
            let bal_stable := alookupD bal2 stable 0
            let sfp := stableForPair bal_stable max_capital
            if sfp > 0 then
              if price_a = 0 then
                -- line 354 divides stable_for_pair by price_a outside
                -- the try: with price_a = 0 the sell has already been
                -- submitted, but Python raises ZeroDivisionError before
                -- the buy, the state flip and save_state, and the cycle
                -- aborts.
                ⟨current_asset,
                 [.sell (pair.coin_b ++ stable) amount_b_to_sell],
                 false, bal2, true⟩
              else
                ⟨pair.coin_a,
                 [.sell (pair.coin_b ++ stable) amount_b_to_sell,
                  .buy (pair.coin_a ++ stable) (sfp / price_a)],
                 true, bal2, false⟩
            else
              ⟨pair.coin_a,
               [.sell (pair.coin_b ++ stable) amount_b_to_sell],
               true, bal2, false⟩
          else
            ⟨current_asset,
             [.sell (pair.coin_b ++ stable) amount_b_to_sell],
             false, bal, false⟩
      else ⟨current_asset, [], false, bal, false⟩
  | _, _ => ⟨current_asset, [], false, bal, false⟩

/-- The guards of the coin_a to coin_b rotation branch
(src/main.py lines 260-270): holding coin_a, ratio strictly above upper,
positive pair value and positive computed sell quantity. -/
def trigA (pair : PairConfig) (current_asset : String)
    (price_a price_b : ℚ) (bal : List (String × ℚ)) (totalValue : ℚ) :
    Prop :=
  current_asset = pair.coin_a ∧ price_a / price_b > pair.upper ∧
  0 < valuePair bal pair.coin_a pair.coin_b price_a price_b ∧
  0 < sellQty (alookupD bal pair.coin_a 0)
      (tradeValue (valuePair bal pair.coin_a pair.coin_b price_a price_b)
        (totalValue * pair.alloc_pct)) price_a

/-- The guards of the coin_b to coin_a rotation branch
(src/main.py lines 316-326). -/
def trigB (pair : PairConfig) (current_asset : String)
    (price_a price_b : ℚ) (bal : List (String × ℚ)) (totalValue : ℚ) :
    Prop :=
  current_asset = pair.coin_b ∧ price_a / price_b < pair.lower ∧
  0 < valuePair bal pair.coin_a pair.coin_b price_a price_b ∧
  0 < sellQty (alookupD bal pair.coin_b 0)
      (tradeValue (valuePair bal pair.coin_a pair.coin_b price_a price_b)
        (totalValue * pair.alloc_pct)) price_b

instance (pair : PairConfig) (current_asset : String)
    (price_a price_b : ℚ) (bal : List (String × ℚ)) (totalValue : ℚ) :
    Decidable (trigA pair current_asset price_a price_b bal totalValue) :=
  inferInstanceAs (Decidable (_ ∧ _ ∧ _ ∧ _))

instance (pair : PairConfig) (current_asset : String)
    (price_a price_b : ℚ) (bal : List (String × ℚ)) (totalValue : ℚ) :
    Decidable (trigB pair current_asset price_a price_b bal totalValue) :=
  inferInstanceAs (Decidable (_ ∧ _ ∧ _ ∧ _))

/-- One tick's external inputs: the ticker snapshot, the balance
snapshot, and the venue behaviour for the i-th configured pair. -/
structure TickInput where
  tickers : List (String × ℚ)
  balances : List (String × ℚ)
  venues : Nat → Venue

/-- The per-pair loop of one cycle (src/main.py lines 199-371): evaluate
the pairs in configured order, threading the balance snapshot (refreshed
in place after a successful live sell) and the persisted state dict
(state.get with default coin_a, line 246; state[name] assignment and
save_state on a completed rotation, lines 311-313 and 366-368).
Returns the final state and all orders submitted, in order. -/
def runPairsAux (stable : String) (tickers : List (String × ℚ))
    (totalValue : ℚ) (dryRun : Bool) (venues : Nat → Venue) :
    List PairConfig → Nat → List (String × ℚ) →
    List (String × String) → List (String × String) × List Order
  | [], _, _, state => (state, [])
  | pair :: rest, i, bal, state =>
    let current_asset := alookupD state pair.name pair.coin_a
    let out := pairStep stable pair tickers bal totalValue current_asset
      dryRun (venues i)
    let state2 :=
      if out.persisted then aset state pair.name out.newAsset else state
    if out.crashed then
      -- an uncaught ZeroDivisionError propagates to the global handler
      -- (src/main.py line 375): the remaining pairs of this cycle are
      -- not evaluated.
      (state2, out.orders)
    else
      let next := runPairsAux stable tickers totalValue dryRun venues rest
        (i + 1) out.newBal state2
      (next.1, out.orders ++ next.2)

/-- One full cycle of the main loop (src/main.py lines 167-373): fetch
snapshots, compute the portfolio valuation, then evaluate every pair. -/
def runCycle (stable : String) (dryRun : Bool) (pairs : List PairConfig)
    (t : TickInput) (state : List (String × String)) :
    List (String × String) × List Order :=
  runPairsAux stable t.tickers (totalValueStable stable t.balances t.tickers)
    dryRun t.venues pairs 0 t.balances state

/-- N successive cycles, accumulating all submitted orders. -/
def runTicks (stable : String) (dryRun : Bool)
    (pairs : List PairConfig) :
    List TickInput → List (String × String) →
    List (String × String) × List Order
  | [], state => (state, [])
  | t :: rest, state =>
    let c := runCycle stable dryRun pairs t state
    let next := runTicks stable dryRun pairs rest c.1
    (next.1, c.2 ++ next.2)

/-- Whether both tickers of a pair are present and price_b is nonzero
(the skip guards of src/backend/main.py lines 182-188). -/
def pricesOk (stable : String) (tickers : List (String × ℚ))
    (pair : PairConfig) : Bool :=
  match alookup tickers (pair.coin_a ++ stable),
        alookup tickers (pair.coin_b ++ stable) with
  | some _, some price_b => if price_b = 0 then false else true
  | _, _ => false

/-- One per-pair record of status.json
(src/backend/main.py lines 227-244). -/
structure PairRecord where
  name : String
  coin_a : String
  coin_b : String
  price_a : ℚ
  price_b : ℚ
  rVal : ℚ
  upper : ℚ
  lower : ℚ
  alloc_pct : ℚ
  bal_a : ℚ
  bal_b : ℚ
  bal_stable : ℚ
  value_pair : ℚ
  max_capital : ℚ
  current_asset : String
  plan : PlanAction
deriving DecidableEq, Repr

/-- The record appended to status_out for a pair, or none when the pair
is skipped before the append (missing ticker or zero price_b,
src/backend/main.py lines 182-188 and 227-244). -/
def backendRecord (stable : String) (pair : PairConfig)
    (tickers bal : List (String × ℚ)) (totalValue : ℚ)
    (current_asset : String) : Option PairRecord :=
  match alookup tickers (pair.coin_a ++ stable),
        alookup tickers (pair.coin_b ++ stable) with
  | some price_a, some price_b =>
    if price_b = 0 then none
    else
      some
        { name := pair.name
          coin_a := pair.coin_a
          coin_b := pair.coin_b
          price_a := price_a
          price_b := price_b
          rVal := price_a / price_b
          upper := pair.upper
          lower := pair.lower
          alloc_pct := pair.alloc_pct
          bal_a := alookupD bal pair.coin_a 0
          bal_b := alookupD bal pair.coin_b 0
          bal_stable := alookupD bal stable 0
          value_pair := valuePair bal pair.coin_a pair.coin_b price_a price_b
          max_capital := totalValue * pair.alloc_pct
          current_asset := current_asset
          plan := nextPlan pair current_asset (price_a / price_b) }
  | _, _ => none

/-- Result of the pair loop of one backend cycle: the collected status
records, the final state, the submitted orders, and whether a pair body
raised an uncaught ZeroDivisionError (aborting the cycle before
save_status). -/
structure BackendLoopResult where
  pairRecords : List PairRecord
  state : List (String × String)
  orders : List Order
  crashed : Bool
deriving Repr

/-- The per-pair loop of one backend cycle
(src/backend/main.py lines 168-355): the record is appended before the
execution branches run, and execution is the same pairStep logic; an
uncaught ZeroDivisionError in a pair body (lines 253 and 337) stops the
loop and aborts the cycle. -/
def runBackendAux (stable : String) (tickers : List (String × ℚ))
    (totalValue : ℚ) (dryRun : Bool) (venues : Nat → Venue) :
    List PairConfig → Nat → List (String × ℚ) →
    List (String × String) → BackendLoopResult
  | [], _, _, state => ⟨[], state, [], false⟩
  | pair :: rest, i, bal, state =>
    let current_asset := alookupD state pair.name pair.coin_a
    let rec0 := backendRecord stable pair tickers bal totalValue current_asset
    let out := pairStep stable pair tickers bal totalValue current_asset
      dryRun (venues i)
    let state2 :=
      if out.persisted then aset state pair.name out.newAsset else state
    if out.crashed then ⟨rec0.toList, state2, out.orders, true⟩
    else
      let next := runBackendAux stable tickers totalValue dryRun venues rest
        (i + 1) out.newBal state2
      ⟨rec0.toList ++ next.pairRecords, next.state,
       out.orders ++ next.orders, next.crashed⟩

/-- status.json content for one cycle
(src/backend/main.py lines 159-166 and 357-358): the total portfolio
value and the per-pair records collected during the cycle. -/
structure CycleSnapshot where
  total_value_stable : ℚ
  pairRecords : List PairRecord
deriving DecidableEq, Repr

/-- One full backend cycle (src/backend/main.py lines 117-358): compute
the valuation, evaluate every pair collecting status records, and write
exactly one status snapshot at the end of the cycle (save_status at line
358 sits inside the same try as the pair loop, so a cycle aborted by an
uncaught exception writes no snapshot: the result is none).  Returns the
optional snapshot, the final state and the submitted orders. -/
def runBackendCycle (stable : String) (dryRun : Bool)
    (pairs : List PairConfig) (t : TickInput)
    (state : List (String × String)) :
    Option CycleSnapshot × List (String × String) × List Order :=
  let tv := totalValueStable stable t.balances t.tickers
  let r := runBackendAux stable t.tickers tv dryRun t.venues pairs 0
    t.balances state
  (if r.crashed then none else some ⟨tv, r.pairRecords⟩, r.state, r.orders)

/-- A concrete pair configuration used by witnesses: thresholds 2 and 1,
allocation one half. -/
def wPair : PairConfig := ⟨"P", "AAA", "BBB", 2, 1, 1/2⟩

/-- Tickers with ratio exactly at the upper threshold of wPair. -/
def wTickersAt : List (String × ℚ) := [("AAAUSDT", 4), ("BBBUSDT", 2)]

/-- Tickers with ratio strictly above the upper threshold of wPair. -/
def wTickersHigh : List (String × ℚ) := [("AAAUSDT", 5), ("BBBUSDT", 2)]

/-- A concrete balance snapshot used by witnesses. -/
def wBal : List (String × ℚ) := [("AAA", 10), ("BBB", 4), ("USDT", 50)]

/-- A venue whose sell call fails. -/
def wVenueFail : Venue := ⟨false, [], true⟩

/-- A venue whose sell call succeeds and whose refreshed balances hold
30 of the stable asset. -/
def wVenueOk : Venue := ⟨true, [("USDT", 30)], true⟩

/-- A venue whose sell call succeeds but whose refreshed balances hold
no stable asset at all. -/
def wVenueNoStable : Venue := ⟨true, [], true⟩

/-- A ticker snapshot in which the coin_a ticker of wPair is missing. -/
def wTickersMissing : List (String × ℚ) := [("BBBUSDT", 2)]

/-- Tickers in which the coin_a price of wPair is zero: the source's
unguarded divisions by price_a raise ZeroDivisionError on this input. -/
def wTickersZeroA : List (String × ℚ) := [("AAAUSDT", 0), ("BBBUSDT", 1)]

/-- A balance snapshot holding only coin_b of wPair. -/
def wBalB : List (String × ℚ) := [("BBB", 4)]

/-- Pair configuration for the C5 counterexample: the thresholds mirror
the HBAR_DOGE entry of the source config (1.05 and 0.95). -/
def c5Pair : PairConfig := ⟨"P", "AAA", "BBB", 21/20, 19/20, 1/2⟩

/-- Tick input for the C5 counterexample: BBBUSDT has a negative price,
and a third asset with a large negative price drives the portfolio
valuation negative. -/
def c5Tick : TickInput :=
  ⟨[("AAAUSDT", 3), ("BBBUSDT", -1), ("CCCUSDT", -20)],
   [("AAA", 10), ("BBB", 1), ("CCC", 2)],
   fun _ => ⟨true, [], true⟩⟩

/-- Two configured pairs for the C9 counterexample. -/
def c9PairA : PairConfig := ⟨"P1", "AAA", "BBB", 21/20, 19/20, 3/10⟩

/-- Second configured pair for the C9 counterexample; its tickers are
missing from the snapshot. -/
def c9PairB : PairConfig := ⟨"P2", "CCC", "DDD", 21/20, 19/20, 3/10⟩

/-- Tick input for the C9 counterexample: only the tickers of c9PairA
are available. -/
def c9Tick : TickInput :=
  ⟨[("AAAUSDT", 3), ("BBBUSDT", 2)], [], fun _ => ⟨true, [], true⟩⟩

/-- The status snapshot written by the crash-free cycle over c9Tick with
pairs c9PairA and c9PairB and empty state: the total is 0 (no balances)
and the only record is the one of c9PairA. -/
def wSnap : CycleSnapshot :=
  ⟨0, [⟨"P1", "AAA", "BBB", 3, 2, 3/2, 21/20, 19/20, 3/10, 0, 0, 0, 0, 0,
       "AAA", PlanAction.rotateAB⟩]⟩

theorem pairStep_dry (stable : String) (pair : PairConfig)
    (tickers bal : List (String × ℚ)) (totalValue : ℚ)
    (current_asset : String) (venue : Venue) :
    ∃ c, pairStep stable pair tickers bal totalValue current_asset true
        venue = ⟨current_asset, [], false, bal, c⟩ := by
  unfold pairStep
  split
  · dsimp only
    simp only [reduceIte]
    split_ifs <;> exact ⟨_, rfl⟩
  · exact ⟨false, rfl⟩

theorem pairStep_priceSkip (stable : String) (pair : PairConfig)
    (tickers bal : List (String × ℚ)) (totalValue : ℚ)
    (current_asset : String) (dryRun : Bool) (venue : Venue)
    (h : alookup tickers (pair.coin_a ++ stable) = none ∨
      alookup tickers (pair.coin_b ++ stable) = none ∨
      alookup tickers (pair.coin_b ++ stable) = some 0) :
    pairStep stable pair tickers bal totalValue current_asset dryRun venue
      = ⟨current_asset, [], false, bal, false⟩ := by
  unfold pairStep
  rcases h with h | h | h
  · rw [h]
  · rw [h]
    cases alookup tickers (pair.coin_a ++ stable) <;> rfl
  · rw [h]
    cases alookup tickers (pair.coin_a ++ stable) with
    | none => rfl
    | some price_a => simp

theorem pairStep_hold (stable : String) (pair : PairConfig)
    (tickers bal : List (String × ℚ)) (totalValue : ℚ)
    (current_asset : String) (dryRun : Bool) (venue : Venue)
    (price_a price_b : ℚ)
    (hA : alookup tickers (pair.coin_a ++ stable) = some price_a)
    (hB : alookup tickers (pair.coin_b ++ stable) = some price_b)
    (hna : ¬(current_asset = pair.coin_a ∧ price_a / price_b > pair.upper))
    (hnb : ¬(current_asset = pair.coin_b ∧ price_a / price_b < pair.lower)) :
    pairStep stable pair tickers bal totalValue current_asset dryRun venue
      = ⟨current_asset, [], false, bal, false⟩ := by
  unfold pairStep
  rw [hA, hB]
  dsimp only
  split_ifs <;> first | rfl | simp_all

theorem pairStep_sellFail (stable : String) (pair : PairConfig)
    (tickers bal : List (String × ℚ)) (totalValue : ℚ)
    (current_asset : String) (venue : Venue)
    (hs : venue.sellOk = false) :
    ∃ os c, pairStep stable pair tickers bal totalValue current_asset
        false venue = ⟨current_asset, os, false, bal, c⟩ ∧
      ∀ o ∈ os, o.isBuy = false := by
  unfold pairStep
  split
  · dsimp only
    simp only [hs, reduceIte]
    split_ifs <;>
      first
        | exact ⟨[], _, rfl, by simp⟩
        | exact ⟨_, _, rfl, by simp [Order.isBuy]⟩
  · exact ⟨[], false, rfl, by simp⟩

theorem pairStep_liveA (stable : String) (pair : PairConfig)
    (tickers bal : List (String × ℚ)) (totalValue : ℚ)
    (current_asset : String) (venue : Venue) (price_a price_b : ℚ)
    (hA : alookup tickers (pair.coin_a ++ stable) = some price_a)
    (hB : alookup tickers (pair.coin_b ++ stable) = some price_b)
    (hb0 : price_b ≠ 0)
    (ht : trigA pair current_asset price_a price_b bal totalValue)
    (hs : venue.sellOk = true) :
    pairStep stable pair tickers bal totalValue current_asset false venue
      = if stableForPair (alookupD venue.refreshedBal stable 0)
            (totalValue * pair.alloc_pct) > 0 then
          ⟨pair.coin_b,
           [.sell (pair.coin_a ++ stable)
              (sellQty (alookupD bal pair.coin_a 0)
                (tradeValue
                  (valuePair bal pair.coin_a pair.coin_b price_a price_b)
                  (totalValue * pair.alloc_pct)) price_a),
            .buy (pair.coin_b ++ stable)
              (stableForPair (alookupD venue.refreshedBal stable 0)
                (totalValue * pair.alloc_pct) / price_b)],
           true, venue.refreshedBal, false⟩
        else
          ⟨pair.coin_b,
           [.sell (pair.coin_a ++ stable)
              (sellQty (alookupD bal pair.coin_a 0)
                (tradeValue
                  (valuePair bal pair.coin_a pair.coin_b price_a price_b)
                  (totalValue * pair.alloc_pct)) price_a)],
           true, venue.refreshedBal, false⟩ := by
  obtain ⟨h1, h2, h3, h4⟩ := ht
  have hpa : ¬price_a = 0 := by
    intro h0
    rw [h0] at h4
    simp only [sellQty, div_zero] at h4
    exact absurd h4 (not_lt.mpr (min_le_right _ _))
  unfold pairStep
  rw [hA, hB]
  dsimp only
  rw [if_neg hb0, if_pos ⟨h1, h2⟩, if_neg (not_le.mpr h3), if_neg hpa,
    if_neg (not_le.mpr h4)]
  simp [hs]

theorem pairStep_liveB (stable : String) (pair : PairConfig)
    (tickers bal : List (String × ℚ)) (totalValue : ℚ)
    (current_asset : String) (venue : Venue) (price_a price_b : ℚ)
    (hA : alookup tickers (pair.coin_a ++ stable) = some price_a)
    (hB : alookup tickers (pair.coin_b ++ stable) = some price_b)
    (hb0 : price_b ≠ 0)
    (hab : pair.coin_a ≠ pair.coin_b)
    (ht : trigB pair current_asset price_a price_b bal totalValue)
    (hs : venue.sellOk = true) :
    pairStep stable pair tickers bal totalValue current_asset false venue
      = if stableForPair (alookupD venue.refreshedBal stable 0)
            (totalValue * pair.alloc_pct) > 0 then
          if price_a = 0 then
            ⟨current_asset,
             [.sell (pair.coin_b ++ stable)
                (sellQty (alookupD bal pair.coin_b 0)
                  (tradeValue
                    (valuePair bal pair.coin_a pair.coin_b price_a price_b)
                    (totalValue * pair.alloc_pct)) price_b)],
             false, venue.refreshedBal, true⟩
          else
            ⟨pair.coin_a,
             [.sell (pair.coin_b ++ stable)
                (sellQty (alookupD bal pair.coin_b 0)
                  (tradeValue
                    (valuePair bal pair.coin_a pair.coin_b price_a price_b)
                    (totalValue * pair.alloc_pct)) price_b),
              .buy (pair.coin_a ++ stable)
                (stableForPair (alookupD venue.refreshedBal stable 0)
                  (totalValue * pair.alloc_pct) / price_a)],
             true, venue.refreshedBal, false⟩
        else
          ⟨pair.coin_a,
           [.sell (pair.coin_b ++ stable)
              (sellQty (alookupD bal pair.coin_b 0)
                (tradeValue
                  (valuePair bal pair.coin_a pair.coin_b price_a price_b)
                  (totalValue * pair.alloc_pct)) price_b)],
           true, venue.refreshedBal, false⟩ := by
  obtain ⟨h1, h2, h3, h4⟩ := ht
  have hnotA : ¬(current_asset = pair.coin_a ∧
      price_a / price_b > pair.upper) := by
    rintro ⟨ha, -⟩
    exact hab (ha.symm.trans h1)
  unfold pairStep
  rw [hA, hB]
  dsimp only
  rw [if_neg hb0, if_neg hnotA, if_pos ⟨h1, h2⟩, if_neg (not_le.mpr h3),
    if_neg (not_le.mpr h4)]
  simp [hs]

/-- C1: with both tickers present, a pair holding coin_a plans a rotation
to coin_b exactly when the ratio is strictly above the upper threshold, a
pair holding coin_b plans a rotation to coin_a exactly when the ratio is
strictly below the lower threshold, and when the ratio equals the
relevant threshold the tick changes nothing: no orders, no state change,
no persistence. -/
theorem c1_trigger_strict (stable : String) (pair : PairConfig)
    (tickers bal : List (String × ℚ)) (totalValue : ℚ)
    (current_asset : String) (dryRun : Bool) (venue : Venue)
    (price_a price_b : ℚ)
    (hA : alookup tickers (pair.coin_a ++ stable) = some price_a)
    (hB : alookup tickers (pair.coin_b ++ stable) = some price_b)
    (hab : pair.coin_a ≠ pair.coin_b) :
    (nextPlan pair current_asset (price_a / price_b) = PlanAction.rotateAB ↔
      current_asset = pair.coin_a ∧ price_a / price_b > pair.upper) ∧
    (nextPlan pair current_asset (price_a / price_b) = PlanAction.rotateBA ↔
      current_asset = pair.coin_b ∧ price_a / price_b < pair.lower) ∧
    (current_asset = pair.coin_a → price_a / price_b = pair.upper →
      pairStep stable pair tickers bal totalValue current_asset dryRun venue
        = ⟨current_asset, [], false, bal, false⟩) ∧
    (current_asset = pair.coin_b → price_a / price_b = pair.lower →
      pairStep stable pair tickers bal totalValue current_asset dryRun venue
        = ⟨current_asset, [], false, bal, false⟩) := by
  refine ⟨?_, ?_, ?_, ?_⟩
  · unfold nextPlan
    split_ifs with h1 h2 <;> simp [h1]
  · unfold nextPlan
    split_ifs with h1 h2
    · have hn2 : ¬(current_asset = pair.coin_b ∧
          price_a / price_b < pair.lower) := by
        rintro ⟨hb, -⟩
        exact hab (h1.1.symm.trans hb)
      simp [hn2]
    · simp [h2]
    · simp [h2]
  · intro ha heq
    refine pairStep_hold stable pair tickers bal totalValue current_asset
      dryRun venue price_a price_b hA hB ?_ ?_
    · rintro ⟨-, hgt⟩
      rw [heq] at hgt
      exact lt_irrefl _ hgt
    · rintro ⟨hb, -⟩
      exact hab (ha.symm.trans hb)
  · intro hb heq
    refine pairStep_hold stable pair tickers bal totalValue current_asset
      dryRun venue price_a price_b hA hB ?_ ?_
    · rintro ⟨ha2, -⟩
      exact hab (ha2.symm.trans hb)
    · rintro ⟨-, hlt⟩
      rw [heq] at hlt
      exact lt_irrefl _ hlt

theorem c1_witness :
    (alookup wTickersAt (wPair.coin_a ++ "USDT") = some 4 ∧
     alookup wTickersAt (wPair.coin_b ++ "USDT") = some 2 ∧
     wPair.coin_a ≠ wPair.coin_b) ∧
    ((nextPlan wPair "AAA" ((4 : ℚ) / 2) = PlanAction.rotateAB ↔
       "AAA" = wPair.coin_a ∧ (4 : ℚ) / 2 > wPair.upper) ∧
     (nextPlan wPair "AAA" ((4 : ℚ) / 2) = PlanAction.rotateBA ↔
       "AAA" = wPair.coin_b ∧ (4 : ℚ) / 2 < wPair.lower) ∧
     ("AAA" = wPair.coin_a → (4 : ℚ) / 2 = wPair.upper →
       pairStep "USDT" wPair wTickersAt wBal 100 "AAA" false wVenueOk
         = ⟨"AAA", [], false, wBal, false⟩) ∧
     ("AAA" = wPair.coin_b → (4 : ℚ) / 2 = wPair.lower →
       pairStep "USDT" wPair wTickersAt wBal 100 "AAA" false wVenueOk
         = ⟨"AAA", [], false, wBal, false⟩)) :=
  ⟨⟨by simp only [wPair, wTickersAt, alookup, String.reduceAppend,
      String.reduceEq, reduceIte],
    by simp only [wPair, wTickersAt, alookup, String.reduceAppend,
      String.reduceEq, reduceIte],
    by simp only [wPair]; decide⟩,
   c1_trigger_strict "USDT" wPair wTickersAt wBal 100 "AAA" false wVenueOk
     4 2
     (by simp only [wPair, wTickersAt, alookup, String.reduceAppend,
       String.reduceEq, reduceIte])
     (by simp only [wPair, wTickersAt, alookup, String.reduceAppend,
       String.reduceEq, reduceIte])
     (by simp only [wPair]; decide)⟩

/-- C2: in live mode, when the venue reports failure on the sell leg, no
buy order is submitted for that rotation attempt, the pair state is not
persisted, and the current asset is exactly what it was before the
tick. -/
theorem c2_sell_fail_aborts (stable : String) (pair : PairConfig)
    (tickers bal : List (String × ℚ)) (totalValue : ℚ)
    (current_asset : String) (venue : Venue)
    (hs : venue.sellOk = false) :
    (pairStep stable pair tickers bal totalValue current_asset false
        venue).newAsset = current_asset ∧
    (pairStep stable pair tickers bal totalValue current_asset false
        venue).persisted = false ∧
    ∀ o ∈ (pairStep stable pair tickers bal totalValue current_asset false
        venue).orders, o.isBuy = false := by
  obtain ⟨os, c, heq, hno⟩ := pairStep_sellFail stable pair tickers bal
    totalValue current_asset venue hs
  rw [heq]
  exact ⟨rfl, rfl, hno⟩

theorem c2_witness :
    wVenueFail.sellOk = false ∧
    ((pairStep "USDT" wPair wTickersHigh wBal 100 "AAA" false
        wVenueFail).newAsset = "AAA" ∧
     (pairStep "USDT" wPair wTickersHigh wBal 100 "AAA" false
        wVenueFail).persisted = false ∧
     ∀ o ∈ (pairStep "USDT" wPair wTickersHigh wBal 100 "AAA" false
        wVenueFail).orders, o.isBuy = false) :=
  ⟨rfl,
   c2_sell_fail_aborts "USDT" wPair wTickersHigh wBal 100 "AAA"
     wVenueFail rfl⟩

/-- C4: with trade_value = min(value_pair, totalValue * alloc_pct) and
the sell quantity = min(held balance, trade_value / price), the sell
quantity never exceeds the held balance and trade_value never exceeds
the allocation cap totalValue * alloc_pct, for non-negative balances,
positive prices and alloc_pct in (0, 1]. -/
theorem c4_sizing_caps (balHeld priceHeld value_pair totalValue
    alloc_pct : ℚ) (hb : 0 ≤ balHeld) (hp : 0 < priceHeld)
    (h0 : 0 < alloc_pct) (h1 : alloc_pct ≤ 1) :
    sellQty balHeld (tradeValue value_pair (totalValue * alloc_pct))
        priceHeld ≤ balHeld ∧
    tradeValue value_pair (totalValue * alloc_pct)
        ≤ totalValue * alloc_pct :=
  ⟨min_le_left _ _, min_le_right _ _⟩

theorem c4_witness :
    ((0 : ℚ) ≤ 10 ∧ (0 : ℚ) < 2 ∧ (0 : ℚ) < 1/2 ∧ (1/2 : ℚ) ≤ 1) ∧
    (sellQty 10 (tradeValue 29 (100 * (1/2))) 2 ≤ 10 ∧
     tradeValue 29 (100 * (1/2)) ≤ 100 * (1/2)) :=
  ⟨⟨by norm_num, by norm_num, by norm_num, by norm_num⟩,
   c4_sizing_caps 10 2 29 100 (1/2) (by norm_num) (by norm_num)
     (by norm_num) (by norm_num)⟩

/-- C10: if the persisted current asset of a pair is neither coin_a nor
coin_b, neither trigger branch can fire, so the tick submits no orders
and neither changes nor persists the pair state. -/
theorem c10_corrupt_state_holds (stable : String) (pair : PairConfig)
    (tickers bal : List (String × ℚ)) (totalValue : ℚ)
    (current_asset : String) (dryRun : Bool) (venue : Venue)
    (hca : current_asset ≠ pair.coin_a) (hcb : current_asset ≠ pair.coin_b) :
    pairStep stable pair tickers bal totalValue current_asset dryRun venue
      = ⟨current_asset, [], false, bal, false⟩ := by
  cases hA : alookup tickers (pair.coin_a ++ stable) with
  | none =>
    exact pairStep_priceSkip stable pair tickers bal totalValue
      current_asset dryRun venue (Or.inl hA)
  | some pa =>
    cases hB : alookup tickers (pair.coin_b ++ stable) with
    | none =>
      exact pairStep_priceSkip stable pair tickers bal totalValue
        current_asset dryRun venue (Or.inr (Or.inl hB))
    | some pb =>
      exact pairStep_hold stable pair tickers bal totalValue
        current_asset dryRun venue pa pb hA hB
        (fun h => hca h.1) (fun h => hcb h.1)

theorem c10_witness :
    (("ZZZ" : String) ≠ wPair.coin_a ∧ ("ZZZ" : String) ≠ wPair.coin_b) ∧
    pairStep "USDT" wPair wTickersHigh wBal 100 "ZZZ" false wVenueOk
      = ⟨"ZZZ", [], false, wBal, false⟩ :=
  ⟨⟨by simp only [wPair]; decide, by simp only [wPair]; decide⟩,
   c10_corrupt_state_holds "USDT" wPair wTickersHigh wBal 100 "ZZZ"
     false wVenueOk (by simp only [wPair]; decide)
     (by simp only [wPair]; decide)⟩

theorem wTrigA_holds : trigA wPair "AAA" 5 2 wBal 100 := by
  refine ⟨rfl, by norm_num [wPair], ?_, ?_⟩
  · simp only [valuePair, alookupD, wBal, alookup, String.reduceEq,
      reduceIte, Option.getD_some, wPair]
    norm_num
  · simp only [sellQty, tradeValue, valuePair, alookupD, wBal, wPair,
      alookup, String.reduceEq, reduceIte, Option.getD_some]
    norm_num

theorem wLookupA : alookup wTickersHigh (wPair.coin_a ++ "USDT") = some 5 := by
  simp only [wPair, wTickersHigh, alookup, String.reduceAppend,
    String.reduceEq, reduceIte]

theorem wLookupB : alookup wTickersHigh (wPair.coin_b ++ "USDT") = some 2 := by
  simp only [wPair, wTickersHigh, alookup, String.reduceAppend,
    String.reduceEq, reduceIte]

theorem wCrashTrigB : trigB wPair "BBB" 0 1 wBalB 100 := by
  refine ⟨rfl, by norm_num [wPair], ?_, ?_⟩
  · simp only [valuePair, alookupD, wPair, wBalB, alookup,
      String.reduceEq, reduceIte, Option.getD_some, Option.getD_none]
    norm_num
  · simp only [sellQty, tradeValue, valuePair, alookupD, wPair, wBalB,
      alookup, String.reduceEq, reduceIte, Option.getD_some,
      Option.getD_none]
    norm_num

theorem wCrash_eval :
    pairStep "USDT" wPair wTickersZeroA wBalB 100 "BBB" false wVenueOk
      = ⟨"BBB", [Order.sell "BBBUSDT" 4], false, [("USDT", 30)], true⟩ := by
  have hA0 : alookup wTickersZeroA (wPair.coin_a ++ "USDT") = some 0 := by
    simp only [wPair, wTickersZeroA, alookup, String.reduceAppend,
      String.reduceEq, reduceIte]
  have hB1 : alookup wTickersZeroA (wPair.coin_b ++ "USDT") = some 1 := by
    simp only [wPair, wTickersZeroA, alookup, String.reduceAppend,
      String.reduceEq, reduceIte]
  rw [pairStep_liveB "USDT" wPair wTickersZeroA wBalB 100 "BBB" wVenueOk
    0 1 hA0 hB1 (by norm_num) (by simp only [wPair]; decide) wCrashTrigB
    rfl]
  have hsfp : stableForPair (alookupD wVenueOk.refreshedBal "USDT" 0)
      ((100 : ℚ) * wPair.alloc_pct) > 0 := by
    simp only [stableForPair, alookupD, alookup, wVenueOk, wPair,
      String.reduceEq, reduceIte, Option.getD_some]
    norm_num
  rw [if_pos hsfp, if_pos rfl]
  simp only [wPair, wVenueOk, wBalB, PairOutcome.mk.injEq,
    String.reduceAppend, List.cons.injEq, Order.sell.injEq, and_true,
    true_and]
  simp only [sellQty, tradeValue, valuePair, alookupD, alookup,
    String.reduceEq, reduceIte, Option.getD_some, Option.getD_none]
  norm_num

/-- C3 counterexample: a live rotation attempt whose sell leg succeeds
(the venue accepts the sell of 4 coin_b) but whose buy-quantity
computation divides by price_a = 0: the source raises ZeroDivisionError
at src/main.py line 354, after the sell and the balance refresh but
before the buy and the state transition, so current_asset stays "BBB"
and nothing is persisted - the flip does not happen for every rotation
with a successful sell. -/
theorem c3_counterexample :
    wVenueOk.sellOk = true ∧
    pairStep "USDT" wPair wTickersZeroA wBalB 100 "BBB" false wVenueOk
      = ⟨"BBB", [Order.sell "BBBUSDT" 4], false, [("USDT", 30)], true⟩ :=
  ⟨rfl, wCrash_eval⟩

/-- C3 (amended): in live mode, once the sell leg of a fired rotation
has succeeded, the pair state flips to the target asset and is
persisted whenever the buy leg reaches one of its three outcomes -
submitted and accepted, submitted and rejected (the venue's buy result
is universally quantified and absent from the conclusion), or skipped
for non-positive stable funds; the one exception is the unguarded
B-to-A buy-quantity division (src/main.py line 354): with price_a = 0
and a positive stable amount the cycle aborts with ZeroDivisionError
before the flip, and the state is neither changed nor persisted. -/
theorem c3_sell_success_flips (stable : String) (pair : PairConfig)
    (tickers bal : List (String × ℚ)) (totalValue : ℚ)
    (current_asset : String) (venue : Venue) (price_a price_b : ℚ)
    (hA : alookup tickers (pair.coin_a ++ stable) = some price_a)
    (hB : alookup tickers (pair.coin_b ++ stable) = some price_b)
    (hb0 : price_b ≠ 0) (hab : pair.coin_a ≠ pair.coin_b)
    (hs : venue.sellOk = true) :
    (trigA pair current_asset price_a price_b bal totalValue →
      (pairStep stable pair tickers bal totalValue current_asset false
          venue).newAsset = pair.coin_b ∧
      (pairStep stable pair tickers bal totalValue current_asset false
          venue).persisted = true) ∧
    (trigB pair current_asset price_a price_b bal totalValue →
      (price_a ≠ 0 ∨
          stableForPair (alookupD venue.refreshedBal stable 0)
            (totalValue * pair.alloc_pct) ≤ 0 →
        (pairStep stable pair tickers bal totalValue current_asset false
            venue).newAsset = pair.coin_a ∧
        (pairStep stable pair tickers bal totalValue current_asset false
            venue).persisted = true) ∧
      (price_a = 0 →
        stableForPair (alookupD venue.refreshedBal stable 0)
            (totalValue * pair.alloc_pct) > 0 →
        (pairStep stable pair tickers bal totalValue current_asset false
            venue).crashed = true ∧
        (pairStep stable pair tickers bal totalValue current_asset false
            venue).persisted = false ∧
        (pairStep stable pair tickers bal totalValue current_asset false
            venue).newAsset = current_asset)) := by
  constructor
  · intro ht
    rw [pairStep_liveA stable pair tickers bal totalValue current_asset
      venue price_a price_b hA hB hb0 ht hs]
    split_ifs <;> exact ⟨rfl, rfl⟩
  · intro ht
    rw [pairStep_liveB stable pair tickers bal totalValue current_asset
      venue price_a price_b hA hB hb0 hab ht hs]
    constructor
    · rintro (hpa | hsfp)
      · split_ifs <;> exact ⟨rfl, rfl⟩
      · rw [if_neg (not_lt.mpr hsfp)]
        exact ⟨rfl, rfl⟩
    · intro hpa hsfp
      rw [if_pos hsfp, if_pos hpa]
      exact ⟨rfl, rfl, rfl⟩

theorem c3_witness :
    (alookup wTickersHigh (wPair.coin_a ++ "USDT") = some 5 ∧
     alookup wTickersHigh (wPair.coin_b ++ "USDT") = some 2 ∧
     (2 : ℚ) ≠ 0 ∧ wPair.coin_a ≠ wPair.coin_b ∧
     wVenueOk.sellOk = true ∧ trigA wPair "AAA" 5 2 wBal 100) ∧
    ((trigA wPair "AAA" 5 2 wBal 100 →
      (pairStep "USDT" wPair wTickersHigh wBal 100 "AAA" false
          wVenueOk).newAsset = wPair.coin_b ∧
      (pairStep "USDT" wPair wTickersHigh wBal 100 "AAA" false
          wVenueOk).persisted = true) ∧
     (trigB wPair "AAA" 5 2 wBal 100 →
      ((5 : ℚ) ≠ 0 ∨
          stableForPair (alookupD wVenueOk.refreshedBal "USDT" 0)
            (100 * wPair.alloc_pct) ≤ 0 →
        (pairStep "USDT" wPair wTickersHigh wBal 100 "AAA" false
            wVenueOk).newAsset = wPair.coin_a ∧
        (pairStep "USDT" wPair wTickersHigh wBal 100 "AAA" false
            wVenueOk).persisted = true) ∧
      ((5 : ℚ) = 0 →
        stableForPair (alookupD wVenueOk.refreshedBal "USDT" 0)
            (100 * wPair.alloc_pct) > 0 →
        (pairStep "USDT" wPair wTickersHigh wBal 100 "AAA" false
            wVenueOk).crashed = true ∧
        (pairStep "USDT" wPair wTickersHigh wBal 100 "AAA" false
            wVenueOk).persisted = false ∧
        (pairStep "USDT" wPair wTickersHigh wBal 100 "AAA" false
            wVenueOk).newAsset = "AAA"))) :=
  ⟨⟨wLookupA, wLookupB, by norm_num, by simp only [wPair]; decide,
    rfl, wTrigA_holds⟩,
   c3_sell_success_flips "USDT" wPair wTickersHigh wBal 100 "AAA"
     wVenueOk 5 2 wLookupA wLookupB (by norm_num)
     (by simp only [wPair]; decide) rfl⟩

/-- C6 counterexample: a live rotation whose sell leg succeeds with
min(refreshed stable balance, allocation cap) = 30 > 0, yet no buy
order is submitted and the state does not transition: the buy-quantity
division stable_for_pair / price_a with price_a = 0 raises
ZeroDivisionError (src/main.py line 354) before the buy, the flip and
save_state. -/
theorem c6_counterexample :
    stableForPair (alookupD wVenueOk.refreshedBal "USDT" 0)
        ((100 : ℚ) * wPair.alloc_pct) > 0 ∧
    (∀ o ∈ (pairStep "USDT" wPair wTickersZeroA wBalB 100 "BBB" false
        wVenueOk).orders, o.isBuy = false) ∧
    (pairStep "USDT" wPair wTickersZeroA wBalB 100 "BBB" false
        wVenueOk).persisted = false := by
  refine ⟨?_, ?_, ?_⟩
  · simp only [stableForPair, alookupD, alookup, wVenueOk, wPair,
      String.reduceEq, reduceIte, Option.getD_some]
    norm_num
  · rw [wCrash_eval]
    simp [Order.isBuy]
  · rw [wCrash_eval]

/-- C6 (amended): in live mode, when the sell leg of a fired rotation
succeeds, the stable amount for the buy leg is exactly
min(refreshed stable balance, totalValue * alloc_pct); when it is
positive and the buy quantity is computable (in the B-to-A direction
this needs price_a nonzero, for line 354 of the source divides by it
with no guard) the buy order for that amount divided by the target
price follows the sell and the state flips and is persisted; when the
amount is non-positive the buy leg is skipped but the state still flips
and is persisted; and in the remaining B-to-A case (positive amount,
price_a = 0) the cycle aborts with ZeroDivisionError after the sell:
no buy, no flip, nothing persisted. -/
theorem c6_buy_leg_amount (stable : String) (pair : PairConfig)
    (tickers bal : List (String × ℚ)) (totalValue : ℚ)
    (current_asset : String) (venue : Venue) (price_a price_b : ℚ)
    (hA : alookup tickers (pair.coin_a ++ stable) = some price_a)
    (hB : alookup tickers (pair.coin_b ++ stable) = some price_b)
    (hb0 : price_b ≠ 0) (hab : pair.coin_a ≠ pair.coin_b)
    (hs : venue.sellOk = true) :
    (trigA pair current_asset price_a price_b bal totalValue →
      (stableForPair (alookupD venue.refreshedBal stable 0)
          (totalValue * pair.alloc_pct) > 0 →
        pairStep stable pair tickers bal totalValue current_asset false
            venue
          = ⟨pair.coin_b,
             [.sell (pair.coin_a ++ stable)
                (sellQty (alookupD bal pair.coin_a 0)
                  (tradeValue
                    (valuePair bal pair.coin_a pair.coin_b price_a price_b)
                    (totalValue * pair.alloc_pct)) price_a),
              .buy (pair.coin_b ++ stable)
                (stableForPair (alookupD venue.refreshedBal stable 0)
                  (totalValue * pair.alloc_pct) / price_b)],
             true, venue.refreshedBal, false⟩) ∧
      (stableForPair (alookupD venue.refreshedBal stable 0)
          (totalValue * pair.alloc_pct) ≤ 0 →
        pairStep stable pair tickers bal totalValue current_asset false
            venue
          = ⟨pair.coin_b,
             [.sell (pair.coin_a ++ stable)
                (sellQty (alookupD bal pair.coin_a 0)
                  (tradeValue
                    (valuePair bal pair.coin_a pair.coin_b price_a price_b)
                    (totalValue * pair.alloc_pct)) price_a)],
             true, venue.refreshedBal, false⟩)) ∧
    (trigB pair current_asset price_a price_b bal totalValue →
      (stableForPair (alookupD venue.refreshedBal stable 0)
          (totalValue * pair.alloc_pct) > 0 → price_a ≠ 0 →
        pairStep stable pair tickers bal totalValue current_asset false
            venue
          = ⟨pair.coin_a,
             [.sell (pair.coin_b ++ stable)
                (sellQty (alookupD bal pair.coin_b 0)
                  (tradeValue
                    (valuePair bal pair.coin_a pair.coin_b price_a price_b)
                    (totalValue * pair.alloc_pct)) price_b),
              .buy (pair.coin_a ++ stable)
                (stableForPair (alookupD venue.refreshedBal stable 0)
                  (totalValue * pair.alloc_pct) / price_a)],
             true, venue.refreshedBal, false⟩) ∧
      (stableForPair (alookupD venue.refreshedBal stable 0)
          (totalValue * pair.alloc_pct) ≤ 0 →
        pairStep stable pair tickers bal totalValue current_asset false
            venue
          = ⟨pair.coin_a,
             [.sell (pair.coin_b ++ stable)
                (sellQty (alookupD bal pair.coin_b 0)
                  (tradeValue
                    (valuePair bal pair.coin_a pair.coin_b price_a price_b)
                    (totalValue * pair.alloc_pct)) price_b)],
             true, venue.refreshedBal, false⟩) ∧
      (stableForPair (alookupD venue.refreshedBal stable 0)
          (totalValue * pair.alloc_pct) > 0 → price_a = 0 →
        pairStep stable pair tickers bal totalValue current_asset false
            venue
          = ⟨current_asset,
             [.sell (pair.coin_b ++ stable)
                (sellQty (alookupD bal pair.coin_b 0)
                  (tradeValue
                    (valuePair bal pair.coin_a pair.coin_b price_a price_b)
                    (totalValue * pair.alloc_pct)) price_b)],
             false, venue.refreshedBal, true⟩)) := by
  constructor
  · intro ht
    rw [pairStep_liveA stable pair tickers bal totalValue current_asset
      venue price_a price_b hA hB hb0 ht hs]
    constructor
    · intro hpos
      rw [if_pos hpos]
    · intro hnp
      rw [if_neg (not_lt.mpr hnp)]
  · intro ht
    rw [pairStep_liveB stable pair tickers bal totalValue current_asset
      venue price_a price_b hA hB hb0 hab ht hs]
    refine ⟨?_, ?_, ?_⟩
    · intro hpos hpa
      rw [if_pos hpos, if_neg hpa]
    · intro hnp
      rw [if_neg (not_lt.mpr hnp)]
    · intro hpos hpa
      rw [if_pos hpos, if_pos hpa]

theorem c6_witness :
    (alookup wTickersHigh (wPair.coin_a ++ "USDT") = some 5 ∧
     alookup wTickersHigh (wPair.coin_b ++ "USDT") = some 2 ∧
     (2 : ℚ) ≠ 0 ∧ wPair.coin_a ≠ wPair.coin_b ∧
     wVenueOk.sellOk = true ∧ trigA wPair "AAA" 5 2 wBal 100) ∧
    ((trigA wPair "AAA" 5 2 wBal 100 →
      (stableForPair (alookupD wVenueOk.refreshedBal "USDT" 0)
          (100 * wPair.alloc_pct) > 0 →
        pairStep "USDT" wPair wTickersHigh wBal 100 "AAA" false wVenueOk
          = ⟨wPair.coin_b,
             [.sell (wPair.coin_a ++ "USDT")
                (sellQty (alookupD wBal wPair.coin_a 0)
                  (tradeValue (valuePair wBal wPair.coin_a wPair.coin_b 5 2)
                    (100 * wPair.alloc_pct)) 5),
              .buy (wPair.coin_b ++ "USDT")
                (stableForPair (alookupD wVenueOk.refreshedBal "USDT" 0)
                  (100 * wPair.alloc_pct) / 2)],
             true, wVenueOk.refreshedBal, false⟩) ∧
      (stableForPair (alookupD wVenueOk.refreshedBal "USDT" 0)
          (100 * wPair.alloc_pct) ≤ 0 →
        pairStep "USDT" wPair wTickersHigh wBal 100 "AAA" false wVenueOk
          = ⟨wPair.coin_b,
             [.sell (wPair.coin_a ++ "USDT")
                (sellQty (alookupD wBal wPair.coin_a 0)
                  (tradeValue (valuePair wBal wPair.coin_a wPair.coin_b 5 2)
                    (100 * wPair.alloc_pct)) 5)],
             true, wVenueOk.refreshedBal, false⟩)) ∧
     (trigB wPair "AAA" 5 2 wBal 100 →
      (stableForPair (alookupD wVenueOk.refreshedBal "USDT" 0)
          (100 * wPair.alloc_pct) > 0 → (5 : ℚ) ≠ 0 →
        pairStep "USDT" wPair wTickersHigh wBal 100 "AAA" false wVenueOk
          = ⟨wPair.coin_a,
             [.sell (wPair.coin_b ++ "USDT")
                (sellQty (alookupD wBal wPair.coin_b 0)
                  (tradeValue (valuePair wBal wPair.coin_a wPair.coin_b 5 2)
                    (100 * wPair.alloc_pct)) 2),
              .buy (wPair.coin_a ++ "USDT")
                (stableForPair (alookupD wVenueOk.refreshedBal "USDT" 0)
                  (100 * wPair.alloc_pct) / 5)],
             true, wVenueOk.refreshedBal, false⟩) ∧
      (stableForPair (alookupD wVenueOk.refreshedBal "USDT" 0)
          (100 * wPair.alloc_pct) ≤ 0 →
        pairStep "USDT" wPair wTickersHigh wBal 100 "AAA" false wVenueOk
          = ⟨wPair.coin_a,
             [.sell (wPair.coin_b ++ "USDT")
                (sellQty (alookupD wBal wPair.coin_b 0)
                  (tradeValue (valuePair wBal wPair.coin_a wPair.coin_b 5 2)
                    (100 * wPair.alloc_pct)) 2)],
             true, wVenueOk.refreshedBal, false⟩) ∧
      (stableForPair (alookupD wVenueOk.refreshedBal "USDT" 0)
          (100 * wPair.alloc_pct) > 0 → (5 : ℚ) = 0 →
        pairStep "USDT" wPair wTickersHigh wBal 100 "AAA" false wVenueOk
          = ⟨"AAA",
             [.sell (wPair.coin_b ++ "USDT")
                (sellQty (alookupD wBal wPair.coin_b 0)
                  (tradeValue (valuePair wBal wPair.coin_a wPair.coin_b 5 2)
                    (100 * wPair.alloc_pct)) 2)],
             false, wVenueOk.refreshedBal, true⟩))) :=
  ⟨⟨wLookupA, wLookupB, by norm_num, by simp only [wPair]; decide,
    rfl, wTrigA_holds⟩,
   c6_buy_leg_amount "USDT" wPair wTickersHigh wBal 100 "AAA" wVenueOk
     5 2 wLookupA wLookupB (by norm_num) (by simp only [wPair]; decide)
     rfl⟩

/-- C5 (amended): if the coin_a or coin_b ticker is absent from the
snapshot, or the coin_b price equals zero, the pair is skipped for the
tick: no orders are submitted and the state is neither changed nor
persisted.  (The source guards price_b == 0, not price_b <= 0; see the
counterexample for a negative price_b.) -/
theorem c5_price_gap_skips (stable : String) (pair : PairConfig)
    (tickers bal : List (String × ℚ)) (totalValue : ℚ)
    (current_asset : String) (dryRun : Bool) (venue : Venue)
    (h : alookup tickers (pair.coin_a ++ stable) = none ∨
      alookup tickers (pair.coin_b ++ stable) = none ∨
      alookup tickers (pair.coin_b ++ stable) = some 0) :
    pairStep stable pair tickers bal totalValue current_asset dryRun venue
      = ⟨current_asset, [], false, bal, false⟩ :=
  pairStep_priceSkip stable pair tickers bal totalValue current_asset
    dryRun venue h

theorem c5_witness :
    (alookup wTickersMissing (wPair.coin_a ++ "USDT") = none ∨
     alookup wTickersMissing (wPair.coin_b ++ "USDT") = none ∨
     alookup wTickersMissing (wPair.coin_b ++ "USDT") = some 0) ∧
    pairStep "USDT" wPair wTickersMissing wBal 100 "AAA" false wVenueOk
      = ⟨"AAA", [], false, wBal, false⟩ :=
  ⟨Or.inl (by simp only [wPair, wTickersMissing, alookup,
    String.reduceAppend, String.reduceEq, reduceIte]),
   c5_price_gap_skips "USDT" wPair wTickersMissing wBal 100 "AAA" false
     wVenueOk (Or.inl (by simp only [wPair, wTickersMissing, alookup,
       String.reduceAppend, String.reduceEq, reduceIte]))⟩

theorem c5Tick_lookup_a :
    alookup c5Tick.tickers (c5Pair.coin_a ++ "USDT") = some 3 := by
  simp only [c5Tick, c5Pair, alookup, String.reduceAppend,
    String.reduceEq, reduceIte]

theorem c5Tick_lookup_b :
    alookup c5Tick.tickers (c5Pair.coin_b ++ "USDT") = some (-1) := by
  simp only [c5Tick, c5Pair, alookup, String.reduceAppend,
    String.reduceEq, reduceIte]

theorem c5Tick_total :
    totalValueStable "USDT" c5Tick.balances c5Tick.tickers = -11 := by
  simp only [c5Tick, totalValueStable, List.foldl, totalStep, alookup,
    String.reduceAppend, String.reduceEq, reduceIte]
  norm_num

theorem c5Tick_trigB : trigB c5Pair "BBB" 3 (-1) c5Tick.balances (-11) := by
  refine ⟨rfl, by norm_num [c5Pair], ?_, ?_⟩
  · simp only [valuePair, alookupD, c5Pair, c5Tick, alookup,
      String.reduceEq, reduceIte, Option.getD_some]
    norm_num
  · simp only [sellQty, tradeValue, valuePair, alookupD, c5Pair, c5Tick,
      alookup, String.reduceEq, reduceIte, Option.getD_some]
    norm_num

theorem c5Tick_pairStep :
    pairStep "USDT" c5Pair c5Tick.tickers c5Tick.balances (-11) "BBB"
      false (c5Tick.venues 0)
      = ⟨"AAA", [Order.sell "BBBUSDT" 1], true, [], false⟩ := by
  rw [pairStep_liveB "USDT" c5Pair c5Tick.tickers c5Tick.balances (-11)
    "BBB" (c5Tick.venues 0) 3 (-1) c5Tick_lookup_a c5Tick_lookup_b
    (by norm_num) (by simp only [c5Pair]; decide) c5Tick_trigB rfl]
  rw [if_neg]
  · simp only [c5Pair, c5Tick, PairOutcome.mk.injEq, String.reduceAppend,
      List.cons.injEq, Order.sell.injEq, and_true, true_and]
    simp only [sellQty, tradeValue, valuePair, alookupD, alookup,
      String.reduceEq, reduceIte, Option.getD_some]
    norm_num
  · simp only [stableForPair, alookupD, alookup, c5Pair, c5Tick,
      Option.getD_none]
    norm_num

/-- C5 counterexample: a tick in which the coin_b price is present and
negative (-1, hence at most 0), yet the pair is not skipped: the live
cycle submits a sell order and flips and persists the pair state.  (The
portfolio valuation is negative because a third held asset also has a
negative snapshot price, so the allocation cap is negative and the sell
quantity min(bal_b, trade_value / price_b) is positive.) -/
theorem c5_counterexample :
    alookup c5Tick.tickers (c5Pair.coin_b ++ "USDT") = some (-1) ∧
    ((-1 : ℚ) ≤ 0) ∧
    runCycle "USDT" false [c5Pair] c5Tick [("P", "BBB")]
      = ([("P", "AAA")], [Order.sell "BBBUSDT" 1]) := by
  refine ⟨c5Tick_lookup_b, by norm_num, ?_⟩
  unfold runCycle
  rw [c5Tick_total]
  simp only [runPairsAux]
  have hca : alookupD [("P", "BBB")] c5Pair.name c5Pair.coin_a = "BBB" := by
    simp only [c5Pair, alookupD, alookup, String.reduceEq, reduceIte,
      Option.getD_some]
  rw [hca, c5Tick_pairStep]
  simp only [aset, c5Pair, String.reduceEq, reduceIte, List.append_nil,
    List.nil_append, List.cons_append, ite_self]

theorem runPairsAux_dry (stable : String) (tickers : List (String × ℚ))
    (totalValue : ℚ) (venues : Nat → Venue) :
    ∀ (pairs : List PairConfig) (i : Nat) (bal : List (String × ℚ))
      (state : List (String × String)),
    runPairsAux stable tickers totalValue true venues pairs i bal state
      = (state, []) := by
  intro pairs
  induction pairs with
  | nil =>
    intro i bal state
    rfl
  | cons pair rest ih =>
    intro i bal state
    obtain ⟨c, hc⟩ := pairStep_dry stable pair tickers bal totalValue
      (alookupD state pair.name pair.coin_a) (venues i)
    simp only [runPairsAux, hc, ih]
    cases c <;> simp [ih]

/-- C7: in simulate (dry-run) mode, any number of consecutive cycles
submits no order to the venue and leaves the whole persisted state
exactly as it was before the run, whatever the snapshots, venues and
trigger conditions of each tick are. -/
theorem c7_simulate_is_noop (stable : String) (pairs : List PairConfig)
    (ticks : List TickInput) (state : List (String × String)) :
    runTicks stable true pairs ticks state = (state, []) := by
  induction ticks generalizing state with
  | nil => rfl
  | cons t rest ih =>
    simp only [runTicks, runCycle, runPairsAux_dry, ih]
    simp

theorem totalStep_eq_add (stable : String) (tickers : List (String × ℚ))
    (acc : ℚ) (p : String × ℚ) :
    totalStep stable tickers acc p
      = acc + specAssetValue stable tickers p.1 p.2 := by
  unfold totalStep specAssetValue
  rcases le_or_lt p.2 0 with h | h
  · rw [if_pos h, if_neg (not_lt.mpr h), add_zero]
  · rw [if_neg (not_le.mpr h), if_pos h]
    by_cases hst : p.1 = stable
    · rw [if_pos hst, if_pos hst]
    · rw [if_neg hst, if_neg hst]
      cases halo : alookup tickers (p.1 ++ stable) with
      | none =>
        dsimp only
        rw [add_zero]
      | some px =>
        dsimp only
        by_cases hpx : px = 0
        · rw [if_pos hpx, hpx, mul_zero, add_zero]
        · rw [if_neg hpx]

theorem totalStep_foldl (stable : String) (tickers : List (String × ℚ)) :
    ∀ (l : List (String × ℚ)) (acc : ℚ),
    l.foldl (totalStep stable tickers) acc
      = acc + (l.map (fun p => specAssetValue stable tickers p.1 p.2)).sum := by
  intro l
  induction l with
  | nil =>
    intro acc
    simp
  | cons p rest ih =>
    intro acc
    rw [List.foldl_cons, ih, totalStep_eq_add, List.map_cons,
      List.sum_cons, add_assoc]

/-- C8: the portfolio valuation equals the sum, over the balance
entries with positive amount, of the amount itself for the stable asset
and amount times price when the asset's ticker is in the snapshot, with
price-less assets contributing zero; it is 0.0 for an empty balance
snapshot, and it is a total function, so a missing price never fails the
computation. -/
theorem c8_portfolio_valuation (stable : String)
    (balances tickers : List (String × ℚ)) :
    totalValueStable stable balances tickers
      = (balances.map
          (fun p => specAssetValue stable tickers p.1 p.2)).sum ∧
    totalValueStable stable [] tickers = 0 := by
  constructor
  · rw [totalValueStable, totalStep_foldl, zero_add]
  · rfl

theorem backendRecord_none (stable : String) (pair : PairConfig)
    (tickers bal : List (String × ℚ)) (totalValue : ℚ)
    (current_asset : String)
    (h : pricesOk stable tickers pair = false) :
    backendRecord stable pair tickers bal totalValue current_asset
      = none := by
  unfold pricesOk at h
  unfold backendRecord
  cases hA : alookup tickers (pair.coin_a ++ stable) with
  | none =>
    cases hB : alookup tickers (pair.coin_b ++ stable) <;> rfl
  | some pa =>
    cases hB : alookup tickers (pair.coin_b ++ stable) with
    | none => rfl
    | some pb =>
      rw [hA, hB] at h
      dsimp only at h ⊢
      split_ifs at h with h0
      rw [if_pos h0]

theorem backendRecord_name (stable : String) (pair : PairConfig)
    (tickers bal : List (String × ℚ)) (totalValue : ℚ)
    (current_asset : String)
    (h : pricesOk stable tickers pair = true) :
    ∃ r, backendRecord stable pair tickers bal totalValue current_asset
        = some r ∧ r.name = pair.name := by
  unfold pricesOk at h
  unfold backendRecord
  cases hA : alookup tickers (pair.coin_a ++ stable) with
  | none =>
    rw [hA] at h
    cases hB : alookup tickers (pair.coin_b ++ stable) <;>
      rw [hB] at h <;> cases h
  | some pa =>
    cases hB : alookup tickers (pair.coin_b ++ stable) with
    | none =>
      rw [hA, hB] at h
      cases h
    | some pb =>
      rw [hA, hB] at h
      dsimp only at h ⊢
      split_ifs at h with h0
      rw [if_neg h0]
      exact ⟨_, rfl, rfl⟩

theorem runBackendAux_names (stable : String)
    (tickers : List (String × ℚ)) (totalValue : ℚ) (dryRun : Bool)
    (venues : Nat → Venue) :
    ∀ (pairs : List PairConfig) (i : Nat) (bal : List (String × ℚ))
      (state : List (String × String)),
    (runBackendAux stable tickers totalValue dryRun venues pairs i bal
        state).crashed = false →
    (runBackendAux stable tickers totalValue dryRun venues pairs i bal
        state).pairRecords.map PairRecord.name
      = (pairs.filter (pricesOk stable tickers)).map PairConfig.name := by
  intro pairs
  induction pairs with
  | nil =>
    intro i bal state _
    rfl
  | cons pair rest ih =>
    intro i bal state hnc
    simp only [runBackendAux] at hnc ⊢
    rw [List.filter_cons]
    by_cases hcr : (pairStep stable pair tickers bal totalValue
        (alookupD state pair.name pair.coin_a) dryRun (venues i)).crashed
      = true
    · rw [if_pos hcr] at hnc
      simp at hnc
    · rw [if_neg hcr] at hnc ⊢
      dsimp only at hnc ⊢
      by_cases hok : pricesOk stable tickers pair = true
      · obtain ⟨r, hr, hname⟩ := backendRecord_name stable pair tickers
          bal totalValue (alookupD state pair.name pair.coin_a) hok
        rw [hr]
        simp only [hok, reduceIte, Option.toList_some,
          List.singleton_append, List.map_cons, hname, ih _ _ _ hnc]
      · rw [Bool.not_eq_true] at hok
        rw [backendRecord_none stable pair tickers bal totalValue
          (alookupD state pair.name pair.coin_a) hok]
        simp only [hok, Bool.false_eq_true, if_false, Option.toList_none,
          List.nil_append, ih _ _ _ hnc]

/-- C9 (amended): a backend cycle that completes - no pair body raises
an uncaught exception - writes exactly one snapshot, carrying the
cycle's total portfolio valuation and, in configured order, one
per-pair record (prices, ratio, thresholds, balances, stable balance,
pair value, allocation cap, current asset and planned action) for each
configured pair whose two tickers are present with a nonzero coin_b
price; pairs skipped at the price check are omitted from the snapshot,
however many pairs traded or were skipped later, and a cycle aborted by
an uncaught exception writes no snapshot at all, because save_status
(src/backend/main.py line 358) sits inside the aborted try block. -/
theorem c9_snapshot_records (stable : String) (dryRun : Bool)
    (pairs : List PairConfig) (t : TickInput)
    (state : List (String × String)) :
    ∀ snap, (runBackendCycle stable dryRun pairs t state).1 = some snap →
      snap.total_value_stable
          = totalValueStable stable t.balances t.tickers ∧
      snap.pairRecords.map PairRecord.name
        = (pairs.filter (pricesOk stable t.tickers)).map PairConfig.name := by
  intro snap hsnap
  unfold runBackendCycle at hsnap
  dsimp only at hsnap
  by_cases hcr : (runBackendAux stable t.tickers
      (totalValueStable stable t.balances t.tickers) dryRun t.venues
      pairs 0 t.balances state).crashed = true
  · rw [if_pos hcr] at hsnap
    exact Option.noConfusion hsnap
  · rw [if_neg hcr] at hsnap
    rw [Bool.not_eq_true] at hcr
    obtain rfl := Option.some.inj hsnap
    exact ⟨rfl, runBackendAux_names stable t.tickers
      (totalValueStable stable t.balances t.tickers) dryRun t.venues
      pairs 0 t.balances state hcr⟩

theorem c9_lookup_a1 :
    alookup c9Tick.tickers (c9PairA.coin_a ++ "USDT") = some 3 := by
  simp only [c9Tick, c9PairA, alookup, String.reduceAppend,
    String.reduceEq, reduceIte]

theorem c9_lookup_b1 :
    alookup c9Tick.tickers (c9PairA.coin_b ++ "USDT") = some 2 := by
  simp only [c9Tick, c9PairA, alookup, String.reduceAppend,
    String.reduceEq, reduceIte]

theorem c9_lookup_a2 :
    alookup c9Tick.tickers (c9PairB.coin_a ++ "USDT") = none := by
  simp only [c9Tick, c9PairB, alookup, String.reduceAppend,
    String.reduceEq, reduceIte]

theorem c9_plan1 :
    nextPlan c9PairA "AAA" ((3 : ℚ) / 2) = PlanAction.rotateAB := by
  unfold nextPlan
  have hc : "AAA" = c9PairA.coin_a ∧ (3 : ℚ) / 2 > c9PairA.upper :=
    ⟨rfl, by norm_num [c9PairA]⟩
  rw [if_pos hc]

theorem c9_record1 :
    backendRecord "USDT" c9PairA c9Tick.tickers c9Tick.balances 0 "AAA"
      = some ⟨"P1", "AAA", "BBB", 3, 2, 3/2, 21/20, 19/20, 3/10, 0, 0,
          0, 0, 0, "AAA", PlanAction.rotateAB⟩ := by
  unfold backendRecord
  rw [c9_lookup_a1, c9_lookup_b1]
  dsimp only
  rw [if_neg (by norm_num : ¬(2 : ℚ) = 0), c9_plan1]
  simp only [Option.some.injEq, PairRecord.mk.injEq, c9PairA, c9Tick,
    valuePair, alookupD, alookup, Option.getD_none]
  norm_num

theorem c9_step1 :
    pairStep "USDT" c9PairA c9Tick.tickers c9Tick.balances 0 "AAA" true
      (c9Tick.venues 0)
      = ⟨"AAA", [], false, c9Tick.balances, false⟩ := by
  unfold pairStep
  rw [c9_lookup_a1, c9_lookup_b1]
  dsimp only
  rw [if_neg (by norm_num : ¬(2 : ℚ) = 0)]
  have hc : "AAA" = c9PairA.coin_a ∧ (3 : ℚ) / 2 > c9PairA.upper :=
    ⟨rfl, by norm_num [c9PairA]⟩
  rw [if_pos hc]
  have hv : valuePair c9Tick.balances c9PairA.coin_a c9PairA.coin_b 3 2
      ≤ 0 := by
    simp only [valuePair, alookupD, alookup, c9Tick, Option.getD_none]
    norm_num
  rw [if_pos hv]

theorem c9_pricesOkB : pricesOk "USDT" c9Tick.tickers c9PairB = false := by
  unfold pricesOk
  rw [c9_lookup_a2]

theorem c9_cycle_eval :
    runBackendCycle "USDT" true [c9PairA, c9PairB] c9Tick []
      = (some wSnap, [], []) := by
  unfold runBackendCycle
  have htv : totalValueStable "USDT" c9Tick.balances c9Tick.tickers
      = 0 := rfl
  rw [htv]
  simp only [runBackendAux]
  have hca1 : alookupD ([] : List (String × String)) c9PairA.name
      c9PairA.coin_a = "AAA" := rfl
  have hca2 : alookupD ([] : List (String × String)) c9PairB.name
      c9PairB.coin_a = "CCC" := rfl
  rw [hca1, c9_record1, c9_step1]
  simp only [Bool.false_eq_true, if_false, reduceIte]
  rw [hca2,
    backendRecord_none "USDT" c9PairB c9Tick.tickers c9Tick.balances 0
      "CCC" c9_pricesOkB,
    pairStep_priceSkip "USDT" c9PairB c9Tick.tickers c9Tick.balances 0
      "CCC" true (c9Tick.venues (0 + 1)) (Or.inl c9_lookup_a2)]
  simp only [Bool.false_eq_true, if_false, reduceIte, Option.toList_some,
    Option.toList_none, List.singleton_append, List.nil_append,
    List.append_nil, wSnap]

/-- C9 counterexample: a completed cycle with two configured pairs in
which the tickers of the second pair are absent writes a snapshot with
a single per-pair record, not one per configured pair. -/
theorem c9_counterexample :
    alookup c9Tick.tickers (c9PairB.coin_a ++ "USDT") = none ∧
    ([c9PairA, c9PairB].length = 2) ∧
    (runBackendCycle "USDT" true [c9PairA, c9PairB] c9Tick []).1
      = some wSnap ∧
    wSnap.pairRecords.length = 1 := by
  refine ⟨c9_lookup_a2, rfl, ?_, rfl⟩
  rw [c9_cycle_eval]

theorem c9_witness :
    (runBackendCycle "USDT" true [c9PairA, c9PairB] c9Tick []).1
        = some wSnap ∧
    (wSnap.total_value_stable
        = totalValueStable "USDT" c9Tick.balances c9Tick.tickers ∧
     wSnap.pairRecords.map PairRecord.name
        = ([c9PairA, c9PairB].filter
            (pricesOk "USDT" c9Tick.tickers)).map PairConfig.name) := by
  have hsnap : (runBackendCycle "USDT" true [c9PairA, c9PairB] c9Tick
      []).1 = some wSnap := by
    rw [c9_cycle_eval]
  exact ⟨hsnap, c9_snapshot_records "USDT" true [c9PairA, c9PairB]
    c9Tick [] wSnap hsnap⟩
